import Mathlib

/-!
Shallow embedding of the gift-card format engine in `src/main.py`.

Strings are modelled as `List Char` (ASCII fragment: Python's `\d` and
`int()` additionally accept non-ASCII Unicode digits, which this model
does not exercise).  Floats in the source (`accuracy`) only ever take
exact small integer values, so they are modelled as `Int`.  Wall-clock
timestamps (`generated_at`, `checked_at`) carry no algorithmic content
and are omitted from the records.  Python exceptions are modelled with
`Except` / `Option`: `HTTPException(404, ...)` becomes `ApiError.notFound`,
the pydantic bound check on `count` becomes `ApiError.invalidArgument`,
and an uncaught `ValueError` from `int()` becomes `ApiError.valueError`.
-/

/-- `int(d)` on a single character: its digit value, or a `ValueError`
(modelled as `none`) when the character is not a digit. -/
def pyInt (c : Char) : Option Nat :=
  if c.isDigit then some (c.toNat - 48) else none

/-- `str(d)` for a digit value `d ≤ 9` (the check digit computed by
`luhn_checksum` is always `< 10`, see `luhn_core_lt`, so a single
character suffices). -/
def digitChar : Nat → Char
  | 0 => '0' | 1 => '1' | 2 => '2' | 3 => '3' | 4 => '4'
  | 5 => '5' | 6 => '6' | 7 => '7' | 8 => '8' | _ => '9'

/-- The doubling step of `luhn_checksum` (main.py line 105-106):
`digits[i] *= 2; if digits[i] > 9: digits[i] -= 9`. -/
def luhnDouble (d : Nat) : Nat :=
  if 2 * d > 9 then 2 * d - 9 else 2 * d

/-- The loop `for i in range(len(digits) - 2, -1, -2)` doubles exactly the
indices `i < n` with `i % 2 = n % 2`; this folds the doubling and the final
`sum(digits)` together (main.py lines 104-107). -/
def luhnSumVals (ds : List Nat) : Nat :=
  (ds.enum.map (fun p => if p.1 % 2 == ds.length % 2 then luhnDouble p.2 else p.2)).sum

/-- `(10 - (sum(digits) % 10)) % 10` (main.py line 107), on digit values. -/
def luhn_core (ds : List Nat) : Nat :=
  (10 - luhnSumVals ds % 10) % 10

/-- `[int(d) for d in number]` (main.py line 103): parses every character,
raising `ValueError` (`none`) at the first non-digit. -/
def parseDigits : List Char → Option (List Nat)
  | [] => some []
  | c :: cs =>
    match pyInt c, parseDigits cs with
    | some d, some ds => some (d :: ds)
    | _, _ => none

/-- `luhn_checksum(number)` (main.py lines 102-107). -/
def luhn_checksum (number : List Char) : Option Nat :=
  (parseDigits number).map luhn_core

/-- `apply_luhn(base) = base + str(luhn_checksum(base + "0"))`
(main.py lines 109-110). -/
def apply_luhn (base : List Char) : Option (List Char) :=
  (luhn_checksum (base ++ ['0'])).map (fun d => base ++ [digitChar d])

/-- Python `re.match` for the anchored patterns `^\d{lo,hi}$` used in the
catalog (with `^\d{n}$` as the case `lo = hi = n`).  `$` in Python matches
at the end of the string or just before a single trailing newline, so a
digit string followed by one `'\n'` also matches. -/
def reMatchB (lo hi : Nat) (s : List Char) : Bool :=
  let t := if s.getLast? = some '\n' then s.dropLast else s
  t.all Char.isDigit && decide (lo ≤ t.length) && decide (t.length ≤ hi)

/-- A `voucher_len` / `pin_len` entry in the catalog: either a plain int or
a tuple of alternatives (main.py lines 48-97). -/
inductive LenSpec where
  | fixed (n : Nat)
  | choice (ns : List Nat)
deriving DecidableEq, Repr

/-- The set of lengths a `LenSpec` declares, as a list. -/
def LenSpec.toList : LenSpec → List Nat
  | .fixed n => [n]
  | .choice ns => ns

/-- Whether a length is allowed by a `LenSpec`. -/
def LenSpec.allowsB (L : LenSpec) (m : Nat) : Bool :=
  L.toList.any (fun k => k == m)

/-- One entry of `GIFTCARDS` (main.py lines 48-97).  The regex strings
`^\d{lo,hi}$` are stored as the bound pair `(lo, hi)`; the source key
`"prefix"` is renamed to `pfx` because `prefix` is a Lean keyword. -/
structure CardCfg where
  voucher_len : LenSpec
  pin_len : LenSpec
  pfx : List Char
  luhn : Bool
  voucher_regex : Nat × Nat
  pin_regex : Nat × Nat
deriving DecidableEq, Repr

/-- The catalog `GIFTCARDS` (main.py lines 48-97), in source order. -/
def GIFTCARDS : List (String × CardCfg) :=
  [ ("Costco Shop Card",
     { voucher_len := .fixed 19, pin_len := .fixed 4, pfx := "60".toList,
       luhn := false, voucher_regex := (19, 19), pin_regex := (4, 4) }),
    ("The Home Depot eGift Card",
     { voucher_len := .fixed 19, pin_len := .fixed 4, pfx := "604".toList,
       luhn := false, voucher_regex := (19, 19), pin_regex := (4, 4) }),
    ("Lowe’s eGift Card",
     { voucher_len := .fixed 19, pin_len := .fixed 4, pfx := "603".toList,
       luhn := false, voucher_regex := (19, 19), pin_regex := (4, 4) }),
    ("Vanilla Visa Gift Card",
     { voucher_len := .fixed 16, pin_len := .choice [3, 4], pfx := "4".toList,
       luhn := true, voucher_regex := (16, 16), pin_regex := (3, 4) }),
    ("Visa Prepaid Gift Card",
     { voucher_len := .fixed 16, pin_len := .choice [3, 4], pfx := "4".toList,
       luhn := true, voucher_regex := (16, 16), pin_regex := (3, 4) }),
    ("Mastercard Prepaid Gift Card",
     { voucher_len := .fixed 16, pin_len := .choice [3, 4], pfx := "5".toList,
       luhn := true, voucher_regex := (16, 16), pin_regex := (3, 4) }),
    ("OneVanilla Prepaid",
     { voucher_len := .fixed 16, pin_len := .fixed 3, pfx := "4".toList,
       luhn := true, voucher_regex := (16, 16), pin_regex := (3, 3) }),
    ("Sam’s Club eGift Card",
     { voucher_len := .fixed 16, pin_len := .fixed 4, pfx := "6014".toList,
       luhn := false, voucher_regex := (16, 16), pin_regex := (4, 4) }),
    ("Walmart eGift Card",
     { voucher_len := .fixed 16, pin_len := .fixed 4, pfx := "6014".toList,
       luhn := false, voucher_regex := (16, 16), pin_regex := (4, 4) }),
    ("Target eGift Card",
     { voucher_len := .choice [15, 16], pin_len := .fixed 4, pfx := "04".toList,
       luhn := false, voucher_regex := (15, 16), pin_regex := (4, 4) }),
    ("Best Buy eGift Card",
     { voucher_len := .fixed 16, pin_len := .fixed 4, pfx := "60".toList,
       luhn := false, voucher_regex := (16, 16), pin_regex := (4, 4) }),
    ("Macy’s eGift Card",
     { voucher_len := .fixed 16, pin_len := .fixed 4, pfx := "60".toList,
       luhn := false, voucher_regex := (16, 16), pin_regex := (4, 4) }) ]

/-- Python dict access `GIFTCARDS[card_name]` / membership test
`card_name in GIFTCARDS`: exact, case-sensitive key lookup. -/
def lookupCard (name : String) : Option CardCfg :=
  (GIFTCARDS.find? (fun p => p.fst == name)).map Prod.snd

/-- The error outcomes of the engine: `HTTPException(404, ...)` for an
unknown product, the pydantic `ge=1, le=1000` bound on `count`
(main.py line 117), and an uncaught `ValueError` from `int()`. -/
inductive ApiError where
  | notFound (name : String)
  | invalidArgument
  | valueError
deriving DecidableEq, Repr

/-- The dict returned by `validate_format` (main.py lines 153-156). -/
structure VResult where
  valid : Bool
  accuracy : Int
deriving DecidableEq, Repr

/-- The checksum part of `validate_format` (main.py lines 142-146):
`luhn_ok = True; if cfg["luhn"] and len(voucher) == 16: expected =
luhn_checksum(voucher[:-1] + "0"); luhn_ok = int(voucher[-1]) == expected`.
Both `luhn_checksum` (on a non-digit among the first 15 characters) and
`int(voucher[-1])` (on a non-digit last character) can raise `ValueError`. -/
def luhnCheck (cfg : CardCfg) (voucher : List Char) : Except ApiError Bool :=
  if cfg.luhn && (voucher.length == 16) then
    match luhn_checksum (voucher.dropLast ++ ['0']) with
    | none => .error .valueError
    | some expected =>
      match voucher.getLast? with
      | none => .error .valueError
      | some c =>
        match pyInt c with
        | none => .error .valueError
        | some d => .ok (d == expected)
  else .ok true

/-- `validate_format(card_name, voucher, pin)` (main.py lines 135-156). -/
def validate_format (card_name : String) (voucher pin : List Char) :
    Except ApiError VResult :=
  match lookupCard card_name with
  | none => .error (.notFound card_name)
  | some cfg =>
    let v_match := reMatchB cfg.voucher_regex.1 cfg.voucher_regex.2 voucher
    let p_match := reMatchB cfg.pin_regex.1 cfg.pin_regex.2 pin
    match luhnCheck cfg voucher with
    | .error e => .error e
    | .ok luhn_ok =>
      let accuracy : Int :=
        100 - (if v_match then 0 else 50) - (if p_match then 0 else 40)
            - (if cfg.luhn && !luhn_ok then 10 else 0)
      .ok { valid := v_match && p_match && (!cfg.luhn || luhn_ok),
            accuracy := max 0 accuracy }

/-- The random draws consumed by one `generate_one` call, as an oracle:
`pickVLen` / `pickPLen` model `random.choice` over a length tuple,
`baseDigit i` the `i`-th character of `random.choices("0123456789", k=...)`
for the voucher body, `extraDigit` the fallback `random.choice("0123456789")`
(main.py line 173), and `pinDigit i` the `i`-th pin character. -/
structure RandSrc where
  pickVLen : List Nat → Nat
  baseDigit : Nat → Char
  extraDigit : Char
  pickPLen : List Nat → Nat
  pinDigit : Nat → Char

/-- What Python's RNG guarantees: `random.choice` over a nonempty sequence
returns a member, and `random.choices("0123456789", ...)` returns digits. -/
def RandOK (rnd : RandSrc) : Prop :=
  (∀ ns : List Nat, ns ≠ [] → rnd.pickVLen ns ∈ ns) ∧
  (∀ i, (rnd.baseDigit i).isDigit = true) ∧
  (rnd.extraDigit.isDigit = true) ∧
  (∀ ns : List Nat, ns ≠ [] → rnd.pickPLen ns ∈ ns) ∧
  (∀ i, (rnd.pinDigit i).isDigit = true)

/-- `if isinstance(v_len, tuple): v_len = random.choice(v_len)`
(main.py lines 164-165, 176-177). -/
def resolveLen (pick : List Nat → Nat) : LenSpec → Nat
  | .fixed n => n
  | .choice ns => pick ns

/-- The dict built by `generate_one` (main.py lines 180-187), minus the
wall-clock `generated_at` field. -/
structure GenCard where
  card_name : String
  voucher : List Char
  pin : List Char
  accuracy : Int
  valid : Bool
deriving DecidableEq, Repr

/-- `base = prefix + "".join(random.choices("0123456789", k=max(0, base_len)));
if len(base) > v_len: base = base[:v_len]` (main.py lines 166-169).
`max(0, v_len - len(prefix))` over Python ints equals truncated `Nat`
subtraction. -/
def mk_base (cfg : CardCfg) (v_len : Nat) (rnd : RandSrc) : List Char :=
  let base := cfg.pfx ++ (List.range (v_len - cfg.pfx.length)).map rnd.baseDigit
  if v_len < base.length then base.take v_len else base

/-- `voucher = apply_luhn(base[:-1]) if cfg["luhn"] and len(base) >= 15 else
base; if len(voucher) < v_len: voucher += random.choice("0123456789")`
(main.py lines 171-173). -/
def mk_voucher (cfg : CardCfg) (v_len : Nat) (rnd : RandSrc) : Option (List Char) :=
  let base := mk_base cfg v_len rnd
  let v0 := if cfg.luhn && decide (15 ≤ base.length) then apply_luhn base.dropLast
            else some base
  v0.map (fun w => if w.length < v_len then w ++ [rnd.extraDigit] else w)

/-- `generate_one(card_name)` (main.py lines 158-187), with the random
draws supplied by the oracle `rnd`. -/
def generate_one (cfg : CardCfg) (card_name : String) (rnd : RandSrc) :
    Option GenCard :=
  let v_len := resolveLen rnd.pickVLen cfg.voucher_len
  match mk_voucher cfg v_len rnd with
  | none => none
  | some voucher =>
    let p_len := resolveLen rnd.pickPLen cfg.pin_len
    some { card_name := card_name, voucher := voucher,
           pin := (List.range p_len).map rnd.pinDigit,
           accuracy := 100, valid := true }

/-- The list comprehension `[... generate_one(req.card_name) ... for _ in
range(req.count)]` (main.py line 210): one independent oracle per card;
an exception in any call aborts the whole batch. -/
def genList (cfg : CardCfg) (name : String) (rnds : Nat → RandSrc) :
    List Nat → Option (List GenCard)
  | [] => some []
  | i :: is =>
    match generate_one cfg name (rnds i), genList cfg name rnds is with
    | some c, some cs => some (c :: cs)
    | _, _ => none

/-- The `/generate` endpoint (main.py lines 115-117 and 205-210): pydantic
rejects `count` outside `[1, 1000]` before the handler runs; the handler
then checks the catalog and builds `count` cards. -/
def generate_cards (card_name : String) (count : Int) (rnds : Nat → RandSrc) :
    Except ApiError (List GenCard) :=
  if count < 1 || 1000 < count then .error .invalidArgument
  else
    match lookupCard card_name with
    | none => .error (.notFound card_name)
    | some cfg =>
      match genList cfg card_name rnds (List.range count.toNat) with
      | none => .error .valueError
      | some cards => .ok cards

/-! ### Concrete objects used by witnesses and counterexamples -/

/-- A deterministic random oracle: always picks the first tuple entry and
draws fixed digits. -/
def rnd0 : RandSrc :=
  { pickVLen := fun ns => ns.headD 0, baseDigit := fun _ => '0',
    extraDigit := '0', pickPLen := fun ns => ns.headD 0,
    pinDigit := fun _ => '7' }

/-- The catalog entry of "Costco Shop Card" (main.py lines 49-52). -/
def costcoCfg : CardCfg :=
  { voucher_len := .fixed 19, pin_len := .fixed 4, pfx := "60".toList,
    luhn := false, voucher_regex := (19, 19), pin_regex := (4, 4) }

/-- The catalog entry of "Vanilla Visa Gift Card" (main.py lines 61-64). -/
def vanillaCfg : CardCfg :=
  { voucher_len := .fixed 16, pin_len := .choice [3, 4], pfx := "4".toList,
    luhn := true, voucher_regex := (16, 16), pin_regex := (3, 4) }

/-- The 19-digit example voucher shipped in the source (main.py line 120). -/
def costcoVoucher : List Char := "6041234567890123456".toList

/-- The card `generate_one` produces for "Vanilla Visa Gift Card" under
`rnd0`: body `4` + fourteen `0`s, Luhn check digit `2`, pin length 3. -/
def vanillaCard0 : GenCard :=
  { card_name := "Vanilla Visa Gift Card", voucher := "4000000000000002".toList,
    pin := "777".toList, accuracy := 100, valid := true }


/-- A 15-digit voucher whose digits would fail a checksum comparison at
length 16 (expected check digit 0, actual last digit 1). -/
def shortVoucher : List Char := "000000000000001".toList

/-- A 16-character voucher containing no digits at all. -/
def nonDigitVoucher : List Char := "AAAAAAAAAAAAAAAA".toList

/-- The 19-digit example voucher followed by a single trailing newline. -/
def newlineVoucher : List Char := "6041234567890123456".toList ++ ['\n']

deriving instance DecidableEq for Except


/-! ### Basic facts about the embedded primitives -/

theorem luhn_core_lt (ds : List Nat) : luhn_core ds < 10 :=
  Nat.mod_lt _ (by norm_num)

theorem digitChar_isDigit {d : Nat} (h : d ≤ 9) : (digitChar d).isDigit = true := by
  interval_cases d <;> decide

theorem pyInt_digitChar {d : Nat} (h : d ≤ 9) : pyInt (digitChar d) = some d := by
  interval_cases d <;> decide

theorem pyInt_of_isDigit {c : Char} (h : c.isDigit = true) :
    pyInt c = some (c.toNat - 48) := by
  simp [pyInt, h]

theorem parseDigits_isSome {l : List Char} (h : l.all Char.isDigit = true) :
    ∃ ds, parseDigits l = some ds := by
  induction l with
  | nil => exact ⟨[], rfl⟩
  | cons c cs ih =>
    rw [List.all_cons, Bool.and_eq_true] at h
    obtain ⟨ds, hds⟩ := ih h.2
    exact ⟨(c.toNat - 48) :: ds, by simp [parseDigits, pyInt_of_isDigit h.1, hds]⟩

theorem all_isDigit_of_parseDigits {l : List Char} {ds : List Nat}
    (h : parseDigits l = some ds) : l.all Char.isDigit = true := by
  induction l generalizing ds with
  | nil => rfl
  | cons c cs ih =>
    rw [parseDigits] at h
    rcases hc : pyInt c with _ | d <;> rw [hc] at h
    · exact absurd h (by simp)
    · rcases hcs : parseDigits cs with _ | es <;> rw [hcs] at h
      · exact absurd h (by simp)
      · have hdig : c.isDigit = true := by
          by_contra hnd
          simp [pyInt, hnd] at hc
        rw [List.all_cons, Bool.and_eq_true]
        exact ⟨hdig, ih hcs⟩

theorem all_of_subset {p : Char → Bool} {l m : List Char}
    (hsub : m ⊆ l) (h : l.all p = true) : m.all p = true := by
  rw [List.all_eq_true] at h ⊢
  exact fun c hc => h c (hsub hc)

theorem newline_not_digit : ('\n').isDigit = false := by decide

/-- On an all-digit string, the trailing-newline branch of `reMatchB` never
fires, so matching is exactly the length test. -/
theorem reMatchB_of_digits {lo hi : Nat} {s : List Char}
    (hd : s.all Char.isDigit = true) (h1 : lo ≤ s.length) (h2 : s.length ≤ hi) :
    reMatchB lo hi s = true := by
  have hnl : s.getLast? ≠ some '\n' := by
    intro hlast
    have hmem := List.mem_of_getLast?_eq_some hlast
    rw [List.all_eq_true] at hd
    exact absurd (hd _ hmem) (by decide)
  simp [reMatchB, hnl, hd, h1, h2]

/-- Declarative semantics of `reMatchB`: Python's `re.match` on `^\d{lo,hi}$`
accepts exactly the digit strings of an allowed length, optionally followed
by a single trailing newline. -/
theorem reMatchB_iff (lo hi : Nat) (s : List Char) :
    reMatchB lo hi s = true ↔
      ∃ ds : List Char, ds.all Char.isDigit = true ∧
        lo ≤ ds.length ∧ ds.length ≤ hi ∧ (s = ds ∨ s = ds ++ ['\n']) := by
  constructor
  · intro h
    rw [reMatchB] at h
    by_cases hnl : s.getLast? = some '\n'
    · simp only [hnl, if_pos rfl, Bool.and_eq_true, decide_eq_true_eq] at h
      refine ⟨s.dropLast, h.1.1, h.1.2, h.2, Or.inr ?_⟩
      exact (List.dropLast_append_getLast? '\n' hnl).symm
    · simp only [if_neg hnl, Bool.and_eq_true, decide_eq_true_eq] at h
      exact ⟨s, h.1.1, h.1.2, h.2, Or.inl rfl⟩
  · rintro ⟨ds, hd, h1, h2, rfl | rfl⟩
    · exact reMatchB_of_digits hd h1 h2
    · have hlast : (ds ++ ['\n']).getLast? = some '\n' := List.getLast?_concat ds
      simp [reMatchB, hlast, List.dropLast_concat, hd, h1, h2]

/-! ### Catalog facts -/

theorem lookupCard_mem {name : String} {cfg : CardCfg}
    (h : lookupCard name = some cfg) : (name, cfg) ∈ GIFTCARDS := by
  rw [lookupCard, Option.map_eq_some'] at h
  obtain ⟨pr, hfind, hsnd⟩ := h
  have hmem := List.mem_of_find?_eq_some hfind
  have hkey := List.find?_some hfind
  rw [beq_iff_eq] at hkey
  have : pr = (name, cfg) := by
    cases pr
    simp only at hkey hsnd
    rw [hkey, hsnd]
  rwa [this] at hmem

theorem allowsB_iff_mem (L : LenSpec) (m : Nat) :
    L.allowsB m = true ↔ m ∈ L.toList := by
  rw [LenSpec.allowsB, List.any_eq_true]
  constructor
  · rintro ⟨k, hk, hbeq⟩
    rw [beq_iff_eq] at hbeq
    rwa [← hbeq]
  · intro h
    exact ⟨m, h, by simp⟩

theorem resolveLen_mem (pick : List Nat → Nat) (L : LenSpec)
    (hne : L.toList ≠ []) (hpick : ∀ ns, ns ≠ [] → pick ns ∈ ns) :
    resolveLen pick L ∈ L.toList := by
  cases L with
  | fixed n => simp [resolveLen, LenSpec.toList]
  | choice ns => exact hpick ns (by simpa [LenSpec.toList] using hne)

/-- The structural invariants of every catalog entry, all checked by
evaluation over the 12 entries: digit prefixes, nonempty length choices,
length specs inside the regex bounds, and the regex bounds covered by the
length specs. -/
theorem catalog_entry_facts : ∀ pr ∈ GIFTCARDS,
    pr.2.pfx.all Char.isDigit = true ∧
    pr.2.voucher_len.toList ≠ [] ∧
    pr.2.pin_len.toList ≠ [] ∧
    (∀ n ∈ pr.2.voucher_len.toList,
      pr.2.voucher_regex.1 ≤ n ∧ n ≤ pr.2.voucher_regex.2) ∧
    (∀ n ∈ pr.2.pin_len.toList,
      pr.2.pin_regex.1 ≤ n ∧ n ≤ pr.2.pin_regex.2) ∧
    (∀ n ∈ List.range' pr.2.voucher_regex.1
        (pr.2.voucher_regex.2 + 1 - pr.2.voucher_regex.1),
      pr.2.voucher_len.allowsB n = true) ∧
    (∀ n ∈ List.range' pr.2.pin_regex.1
        (pr.2.pin_regex.2 + 1 - pr.2.pin_regex.1),
      pr.2.pin_len.allowsB n = true) := by
  decide

/-- For every catalog entry, the length spec and the regex bounds describe
the same set of lengths. -/
theorem catalog_allows_iff_bounds {name : String} {cfg : CardCfg}
    (h : lookupCard name = some cfg) :
    (∀ n, cfg.voucher_len.allowsB n = true ↔
      cfg.voucher_regex.1 ≤ n ∧ n ≤ cfg.voucher_regex.2) ∧
    (∀ n, cfg.pin_len.allowsB n = true ↔
      cfg.pin_regex.1 ≤ n ∧ n ≤ cfg.pin_regex.2) := by
  obtain ⟨-, -, -, hv, hp, hvr, hpr⟩ := catalog_entry_facts _ (lookupCard_mem h)
  dsimp only at hv hp hvr hpr
  constructor
  · intro n
    constructor
    · intro ha
      exact hv n ((allowsB_iff_mem _ _).mp ha)
    · rintro ⟨h1, h2⟩
      exact hvr n (by rw [List.mem_range'_1]; omega)
  · intro n
    constructor
    · intro ha
      exact hp n ((allowsB_iff_mem _ _).mp ha)
    · rintro ⟨h1, h2⟩
      exact hpr n (by rw [List.mem_range'_1]; omega)

/-! ### Generation-stage lemmas -/

theorem mk_base_length (cfg : CardCfg) (v_len : Nat) (rnd : RandSrc) :
    (mk_base cfg v_len rnd).length = v_len := by
  rw [mk_base]
  split
  · rename_i hlt
    rw [List.length_take]
    rw [List.length_append, List.length_map, List.length_range] at hlt ⊢
    omega
  · rename_i hge
    rw [List.length_append, List.length_map, List.length_range] at hge ⊢
    omega

theorem mk_base_digits (cfg : CardCfg) (v_len : Nat) (rnd : RandSrc)
    (hp : cfg.pfx.all Char.isDigit = true)
    (hb : ∀ i, (rnd.baseDigit i).isDigit = true) :
    (mk_base cfg v_len rnd).all Char.isDigit = true := by
  have hall : (cfg.pfx ++
      (List.range (v_len - cfg.pfx.length)).map rnd.baseDigit).all Char.isDigit = true := by
    rw [List.all_append, Bool.and_eq_true]
    refine ⟨hp, ?_⟩
    rw [List.all_eq_true]
    intro c hc
    obtain ⟨i, -, rfl⟩ := List.mem_map.mp hc
    exact hb i
  rw [mk_base]
  split
  · exact all_of_subset (List.take_subset _ _) hall
  · exact hall

theorem mk_voucher_spec (cfg : CardCfg) (v_len : Nat) (rnd : RandSrc)
    (hp : cfg.pfx.all Char.isDigit = true)
    (hb : ∀ i, (rnd.baseDigit i).isDigit = true) :
    ∃ w, mk_voucher cfg v_len rnd = some w ∧ w.length = v_len ∧
      w.all Char.isDigit = true ∧
      (cfg.luhn = true → 15 ≤ v_len →
        ∃ d, d ≤ 9 ∧ w = (mk_base cfg v_len rnd).dropLast ++ [digitChar d] ∧
          luhn_checksum ((mk_base cfg v_len rnd).dropLast ++ ['0']) = some d) := by
  have hlen := mk_base_length cfg v_len rnd
  have hdig := mk_base_digits cfg v_len rnd hp hb
  by_cases hcond : cfg.luhn = true ∧ 15 ≤ v_len
  · obtain ⟨hl, h15⟩ := hcond
    have hdl : (mk_base cfg v_len rnd).dropLast.all Char.isDigit = true :=
      all_of_subset (List.dropLast_subset _) hdig
    have hdl0 : ((mk_base cfg v_len rnd).dropLast ++ ['0']).all Char.isDigit = true := by
      rw [List.all_append, Bool.and_eq_true]
      exact ⟨hdl, by decide⟩
    obtain ⟨ds, hds⟩ := parseDigits_isSome hdl0
    have hd9 : luhn_core ds ≤ 9 := Nat.lt_succ_iff.mp (luhn_core_lt ds)
    have hlc : luhn_checksum ((mk_base cfg v_len rnd).dropLast ++ ['0']) =
        some (luhn_core ds) := by
      rw [luhn_checksum, hds, Option.map_some']
    have happ : apply_luhn (mk_base cfg v_len rnd).dropLast =
        some ((mk_base cfg v_len rnd).dropLast ++ [digitChar (luhn_core ds)]) := by
      rw [apply_luhn, hlc, Option.map_some']
    have hwlen : ((mk_base cfg v_len rnd).dropLast ++ [digitChar (luhn_core ds)]).length
        = v_len := by
      rw [List.length_append, List.length_dropLast, hlen]
      simp only [List.length_singleton]
      omega
    refine ⟨(mk_base cfg v_len rnd).dropLast ++ [digitChar (luhn_core ds)], ?_, hwlen, ?_, ?_⟩
    · rw [mk_voucher]
      have hc : (cfg.luhn && decide (15 ≤ (mk_base cfg v_len rnd).length)) = true := by
        rw [hl, hlen]
        simp [h15]
      rw [hc, if_pos rfl, happ, Option.map_some']
      rw [hwlen]
      simp
    · rw [List.all_append, Bool.and_eq_true]
      refine ⟨hdl, ?_⟩
      simp [digitChar_isDigit hd9]
    · intro _ _
      exact ⟨luhn_core ds, hd9, rfl, hlc⟩
  · refine ⟨mk_base cfg v_len rnd, ?_, hlen, hdig, ?_⟩
    · rw [mk_voucher]
      have hc : (cfg.luhn && decide (15 ≤ (mk_base cfg v_len rnd).length)) = false := by
        rw [hlen]
        cases hcl : cfg.luhn
        · rfl
        · simp only [Bool.true_and, decide_eq_false_iff_not]
          intro h15
          exact hcond ⟨hcl, h15⟩
      rw [hc]
      simp [hlen]
    · intro hl h15
      exact absurd ⟨hl, h15⟩ hcond

/-! ### Validation-stage lemmas -/

theorem luhnCheck_not16 (cfg : CardCfg) (w : List Char)
    (h : cfg.luhn = true → w.length ≠ 16) : luhnCheck cfg w = .ok true := by
  rw [luhnCheck]
  have hc : (cfg.luhn && (w.length == 16)) = false := by
    cases hcl : cfg.luhn
    · rfl
    · simp only [Bool.true_and, beq_eq_false_iff_ne, ne_eq]
      exact h hcl
  rw [hc]
  simp

theorem luhnCheck_concat_checkdigit (cfg : CardCfg) (l : List Char) (d : Nat)
    (hl : cfg.luhn = true) (hlen : l.length = 15) (hd : d ≤ 9)
    (hc : luhn_checksum (l ++ ['0']) = some d) :
    luhnCheck cfg (l ++ [digitChar d]) = .ok true := by
  rw [luhnCheck]
  have hlen2 : ((l ++ [digitChar d]).length == 16) = true := by
    rw [List.length_append, hlen]
    rfl
  rw [hl, hlen2, Bool.and_self, if_pos rfl, List.dropLast_concat, hc,
    List.getLast?_concat]
  simp [pyInt_digitChar hd]

theorem validate_format_ok (name : String) (cfg : CardCfg) (v p : List Char)
    (b : Bool) (h : lookupCard name = some cfg) (hb : luhnCheck cfg v = .ok b) :
    validate_format name v p = .ok
      { valid := reMatchB cfg.voucher_regex.1 cfg.voucher_regex.2 v &&
                 reMatchB cfg.pin_regex.1 cfg.pin_regex.2 p && (!cfg.luhn || b),
        accuracy := max 0
          (100 - (if reMatchB cfg.voucher_regex.1 cfg.voucher_regex.2 v then 0 else 50)
               - (if reMatchB cfg.pin_regex.1 cfg.pin_regex.2 p then 0 else 40)
               - (if cfg.luhn && !b then 10 else 0)) } := by
  simp only [validate_format, h, hb]

/-! ### The master generation lemma -/

/-- Every successful random draw yields a card whose voucher has exactly
the chosen length, is all digits, validates against its own product with
`valid = true` and `accuracy = 100`, and, for checksum products at length
16, carries the recomputed check digit in its last position. -/
theorem generate_one_spec (name : String) (cfg : CardCfg) (rnd : RandSrc)
    (h : lookupCard name = some cfg) (hr : RandOK rnd) :
    ∃ card, generate_one cfg name rnd = some card ∧
      card.card_name = name ∧
      card.voucher.length = resolveLen rnd.pickVLen cfg.voucher_len ∧
      card.voucher.all Char.isDigit = true ∧
      validate_format name card.voucher card.pin =
        .ok { valid := true, accuracy := 100 } ∧
      (cfg.luhn = true → card.voucher.length = 16 →
        ∃ d, d ≤ 9 ∧ card.voucher.getLast? = some (digitChar d) ∧
          luhn_checksum (card.voucher.dropLast ++ ['0']) = some d) := by
  obtain ⟨hpick, hbase, hextra, hppick, hpin⟩ := hr
  obtain ⟨hpref, hvne, hpne, hvbound, hpbound, -, -⟩ :=
    catalog_entry_facts _ (lookupCard_mem h)
  dsimp only at hpref hvne hpne hvbound hpbound
  set v_len := resolveLen rnd.pickVLen cfg.voucher_len with hv_len
  have hvmem : v_len ∈ cfg.voucher_len.toList :=
    resolveLen_mem rnd.pickVLen cfg.voucher_len hvne hpick
  have hvb := hvbound v_len hvmem
  set p_len := resolveLen rnd.pickPLen cfg.pin_len with hp_len
  have hpmem : p_len ∈ cfg.pin_len.toList :=
    resolveLen_mem rnd.pickPLen cfg.pin_len hpne hppick
  have hpb := hpbound p_len hpmem
  obtain ⟨w, hw, hwlen, hwdig, hwl⟩ := mk_voucher_spec cfg v_len rnd hpref hbase
  have hpinlen : ((List.range p_len).map rnd.pinDigit).length = p_len := by
    rw [List.length_map, List.length_range]
  have hpindig : ((List.range p_len).map rnd.pinDigit).all Char.isDigit = true := by
    rw [List.all_eq_true]
    intro c hc
    obtain ⟨i, -, rfl⟩ := List.mem_map.mp hc
    exact hpin i
  have hvmatch : reMatchB cfg.voucher_regex.1 cfg.voucher_regex.2 w = true :=
    reMatchB_of_digits hwdig (by rw [hwlen]; exact hvb.1) (by rw [hwlen]; exact hvb.2)
  have hpmatch : reMatchB cfg.pin_regex.1 cfg.pin_regex.2
      ((List.range p_len).map rnd.pinDigit) = true :=
    reMatchB_of_digits hpindig (by rw [hpinlen]; exact hpb.1)
      (by rw [hpinlen]; exact hpb.2)
  have hLC : luhnCheck cfg w = .ok true := by
    by_cases hcl : cfg.luhn = true
    · by_cases h16 : v_len = 16
      · obtain ⟨d, hd9, hweq, hlc⟩ := hwl hcl (by omega)
        have hdllen : (mk_base cfg v_len rnd).dropLast.length = 15 := by
          rw [List.length_dropLast, mk_base_length, h16]
        rw [hweq]
        exact luhnCheck_concat_checkdigit cfg _ d hcl hdllen hd9 hlc
      · exact luhnCheck_not16 cfg w (fun _ => by rw [hwlen]; exact h16)
    · exact luhnCheck_not16 cfg w (fun hc => absurd hc hcl)
  refine ⟨{ card_name := name, voucher := w,
            pin := (List.range p_len).map rnd.pinDigit,
            accuracy := 100, valid := true }, ?_, rfl, hwlen, hwdig, ?_, ?_⟩
  · rw [generate_one, ← hv_len, hw]
  · rw [validate_format_ok name cfg _ _ true h hLC]
    rw [hvmatch, hpmatch]
    simp
  · intro hcl h16
    dsimp only at h16
    obtain ⟨d, hd9, hweq, hlc⟩ := hwl hcl (by rw [hwlen] at h16; omega)
    refine ⟨d, hd9, ?_, ?_⟩
    · dsimp only
      rw [hweq, List.getLast?_concat]
    · dsimp only
      rw [hweq, List.dropLast_concat, hlc]

/-! ### Facts about the concrete oracle -/

theorem rnd0_ok : RandOK rnd0 := by
  refine ⟨?_, fun _ => rfl, rfl, ?_, fun _ => rfl⟩ <;>
    · intro ns hne
      cases ns with
      | nil => exact absurd rfl hne
      | cons a t => exact List.mem_cons_self a t


/-! ### Batch-generation lemma -/

theorem genList_length (cfg : CardCfg) (name : String) (rnds : Nat → RandSrc)
    (l : List Nat)
    (h : ∀ i ∈ l, ∃ c, generate_one cfg name (rnds i) = some c) :
    ∃ cs, genList cfg name rnds l = some cs ∧ cs.length = l.length := by
  induction l with
  | nil => exact ⟨[], rfl, rfl⟩
  | cons i is ih =>
    obtain ⟨c, hc⟩ := h i (List.mem_cons_self i is)
    obtain ⟨cs, hcs, hlen⟩ := ih (fun j hj => h j (List.mem_cons_of_mem i hj))
    refine ⟨c :: cs, ?_, by simp [hlen]⟩
    rw [genList, hc, hcs]

/-! ### Claim theorems -/

/-- Claim C1: for every product in the catalog, any (voucher, pin) pair
returned by `generate_one` validates against the same product with
`valid = true` and `accuracy = 100`; and for checksum-requiring products a
generated 16-character voucher ends in exactly the check digit recomputed
over its first 15 characters placeholder-padded. -/
theorem generate_validate_self_consistency
    (name : String) (cfg : CardCfg) (rnd : RandSrc) (card : GenCard)
    (h : lookupCard name = some cfg) (hr : RandOK rnd)
    (hg : generate_one cfg name rnd = some card) :
    validate_format name card.voucher card.pin =
      .ok { valid := true, accuracy := 100 } ∧
    (cfg.luhn = true → card.voucher.length = 16 →
      ∃ d, d ≤ 9 ∧ card.voucher.getLast? = some (digitChar d) ∧
        luhn_checksum (card.voucher.dropLast ++ ['0']) = some d) := by
  obtain ⟨c, hc, -, -, -, hval, hl⟩ := generate_one_spec name cfg rnd h hr
  obtain rfl : c = card := Option.some.inj (hc.symm.trans hg)
  exact ⟨hval, hl⟩

/-- Witness for C1: the Vanilla Visa card generated under `rnd0`. -/
theorem generate_validate_self_consistency_witness :
    validate_format "Vanilla Visa Gift Card" vanillaCard0.voucher vanillaCard0.pin =
      .ok { valid := true, accuracy := 100 } ∧
    (vanillaCfg.luhn = true → vanillaCard0.voucher.length = 16 →
      ∃ d, d ≤ 9 ∧ vanillaCard0.voucher.getLast? = some (digitChar d) ∧
        luhn_checksum (vanillaCard0.voucher.dropLast ++ ['0']) = some d) :=
  generate_validate_self_consistency "Vanilla Visa Gift Card" vanillaCfg rnd0
    vanillaCard0 (by decide) rnd0_ok (by decide)

/-- Claim C6: every generation call yields a voucher whose length is exactly
the length chosen for that call (fixed schema length, or the tuple member
picked by `random.choice`). -/
theorem generated_voucher_length_exact
    (name : String) (cfg : CardCfg) (rnd : RandSrc)
    (h : lookupCard name = some cfg) (hr : RandOK rnd) :
    ∃ card, generate_one cfg name rnd = some card ∧
      card.voucher.length = resolveLen rnd.pickVLen cfg.voucher_len := by
  obtain ⟨c, hc, -, hlen, -, -, -⟩ := generate_one_spec name cfg rnd h hr
  exact ⟨c, hc, hlen⟩

/-- Witness for C6: a Target card under `rnd0`, which picks length 15 from
the tuple (15, 16). -/
theorem generated_voucher_length_exact_witness :
    ∃ card, generate_one
        { voucher_len := .choice [15, 16], pin_len := .fixed 4,
          pfx := "04".toList, luhn := false, voucher_regex := (15, 16),
          pin_regex := (4, 4) } "Target eGift Card" rnd0 = some card ∧
      card.voucher.length = 15 :=
  generated_voucher_length_exact "Target eGift Card" _ rnd0 (by decide) rnd0_ok

/-- Claim C2: for every known product, whenever validation returns a result,
`accuracy` equals 100 minus 50 exactly when the voucher pattern fails, minus
40 exactly when the pin pattern fails, minus 10 exactly when the schema
requires a checksum and `checksumOk` is false; the floor at 0 is vacuous, so
`accuracy` always lies in [0, 100]; and `valid` holds exactly when both
patterns match and (no checksum is required or `checksumOk` holds). -/
theorem validation_scoring_formula
    (name : String) (cfg : CardCfg) (v p : List Char) (r : VResult)
    (h : lookupCard name = some cfg)
    (hr : validate_format name v p = .ok r) :
    ∃ checksumOk : Bool, luhnCheck cfg v = .ok checksumOk ∧
      r.accuracy =
        100 - (if reMatchB cfg.voucher_regex.1 cfg.voucher_regex.2 v then 0 else 50)
            - (if reMatchB cfg.pin_regex.1 cfg.pin_regex.2 p then 0 else 40)
            - (if cfg.luhn = true ∧ checksumOk = false then 10 else 0) ∧
      0 ≤ r.accuracy ∧ r.accuracy ≤ 100 ∧
      (r.valid = true ↔
        (reMatchB cfg.voucher_regex.1 cfg.voucher_regex.2 v = true ∧
         reMatchB cfg.pin_regex.1 cfg.pin_regex.2 p = true ∧
         (cfg.luhn = false ∨ checksumOk = true))) := by
  rcases hLC : luhnCheck cfg v with e | b
  · simp only [validate_format, h, hLC] at hr
    exact absurd hr (by simp)
  · rw [validate_format_ok name cfg v p b h hLC] at hr
    obtain rfl := Except.ok.inj hr
    refine ⟨b, rfl, ?_, ?_, ?_, ?_⟩ <;>
      · cases hvm : reMatchB cfg.voucher_regex.1 cfg.voucher_regex.2 v <;>
          cases hpm : reMatchB cfg.pin_regex.1 cfg.pin_regex.2 p <;>
            cases hl : cfg.luhn <;> cases b <;> simp_all

/-- Witness for C2: Costco with a matching voucher and a 2-digit pin. -/
theorem validation_scoring_formula_witness :
    ∃ checksumOk : Bool, luhnCheck costcoCfg costcoVoucher = .ok checksumOk ∧
      ({ valid := false, accuracy := 60 } : VResult).accuracy =
        100 - (if reMatchB costcoCfg.voucher_regex.1 costcoCfg.voucher_regex.2
                    costcoVoucher then 0 else 50)
            - (if reMatchB costcoCfg.pin_regex.1 costcoCfg.pin_regex.2
                    "12".toList then 0 else 40)
            - (if costcoCfg.luhn = true ∧ checksumOk = false then 10 else 0) ∧
      0 ≤ ({ valid := false, accuracy := 60 } : VResult).accuracy ∧
      ({ valid := false, accuracy := 60 } : VResult).accuracy ≤ 100 ∧
      (({ valid := false, accuracy := 60 } : VResult).valid = true ↔
        (reMatchB costcoCfg.voucher_regex.1 costcoCfg.voucher_regex.2
            costcoVoucher = true ∧
         reMatchB costcoCfg.pin_regex.1 costcoCfg.pin_regex.2 "12".toList = true ∧
         (costcoCfg.luhn = false ∨ checksumOk = true))) :=
  validation_scoring_formula "Costco Shop Card" costcoCfg costcoVoucher
    "12".toList { valid := false, accuracy := 60 } (by decide) (by decide)

/-- Claim C3: for a checksum-requiring product, a voucher whose length is
not 16 leaves `checksumOk` at its default `true`: the checksum term
subtracts nothing and never falsifies `valid`, whatever the digits are. -/
theorem checksum_skipped_off_length16
    (name : String) (cfg : CardCfg) (h : lookupCard name = some cfg)
    (hl : cfg.luhn = true) (v : List Char) (h16 : v.length ≠ 16)
    (p : List Char) :
    luhnCheck cfg v = .ok true ∧
    validate_format name v p = .ok
      { valid := reMatchB cfg.voucher_regex.1 cfg.voucher_regex.2 v &&
                 reMatchB cfg.pin_regex.1 cfg.pin_regex.2 p,
        accuracy :=
          100 - (if reMatchB cfg.voucher_regex.1 cfg.voucher_regex.2 v
                 then 0 else 50)
              - (if reMatchB cfg.pin_regex.1 cfg.pin_regex.2 p
                 then 0 else 40) } := by
  have hLC : luhnCheck cfg v = .ok true := luhnCheck_not16 cfg v (fun _ => h16)
  refine ⟨hLC, ?_⟩
  rw [validate_format_ok name cfg v p true h hLC]
  cases hvm : reMatchB cfg.voucher_regex.1 cfg.voucher_regex.2 v <;>
    cases hpm : reMatchB cfg.pin_regex.1 cfg.pin_regex.2 p <;>
      simp [hl]

/-- Witness for C3: a 15-digit voucher against Vanilla Visa whose embedded
digits would fail the checksum at length 16. -/
theorem checksum_skipped_off_length16_witness :
    luhnCheck vanillaCfg shortVoucher = .ok true ∧
    validate_format "Vanilla Visa Gift Card" shortVoucher "123".toList = .ok
      { valid := reMatchB vanillaCfg.voucher_regex.1 vanillaCfg.voucher_regex.2
                   shortVoucher &&
                 reMatchB vanillaCfg.pin_regex.1 vanillaCfg.pin_regex.2
                   "123".toList,
        accuracy :=
          100 - (if reMatchB vanillaCfg.voucher_regex.1 vanillaCfg.voucher_regex.2
                      shortVoucher then 0 else 50)
              - (if reMatchB vanillaCfg.pin_regex.1 vanillaCfg.pin_regex.2
                      "123".toList then 0 else 40) } :=
  checksum_skipped_off_length16 "Vanilla Visa Gift Card" vanillaCfg (by decide)
    (by decide) shortVoucher (by decide) "123".toList

/-- Claim C10: in every result of `validate_format`, `valid = true` holds
exactly when `accuracy = 100`. -/
theorem valid_iff_accuracy_100 (name : String) (v p : List Char) (r : VResult)
    (hr : validate_format name v p = .ok r) :
    (r.valid = true ↔ r.accuracy = 100) := by
  rcases hcfg : lookupCard name with _ | cfg
  · simp only [validate_format, hcfg] at hr
    exact absurd hr (by simp)
  · rcases hLC : luhnCheck cfg v with e | b
    · simp only [validate_format, hcfg, hLC] at hr
      exact absurd hr (by simp)
    · rw [validate_format_ok name cfg v p b hcfg hLC] at hr
      obtain rfl := Except.ok.inj hr
      cases hvm : reMatchB cfg.voucher_regex.1 cfg.voucher_regex.2 v <;>
        cases hpm : reMatchB cfg.pin_regex.1 cfg.pin_regex.2 p <;>
          cases hl : cfg.luhn <;> cases b <;> simp_all

/-- Witness for C10: the Costco result with a failing 2-digit pin. -/
theorem valid_iff_accuracy_100_witness :
    (({ valid := false, accuracy := 60 } : VResult).valid = true ↔
     ({ valid := false, accuracy := 60 } : VResult).accuracy = 100) :=
  valid_iff_accuracy_100 "Costco Shop Card" costcoVoucher "12".toList
    { valid := false, accuracy := 60 } (by decide)

/-- At length exactly 16 with all-digit content, the validation checksum
branch compares the last digit against the recomputed check digit. -/
theorem luhnCheck_digits16 (cfg : CardCfg) (v : List Char)
    (hl : cfg.luhn = true) (h16 : v.length = 16)
    (hdig : v.all Char.isDigit = true) :
    ∃ d e, (v.getLast? >>= pyInt) = some d ∧
      luhn_checksum (v.dropLast ++ ['0']) = some e ∧
      luhnCheck cfg v = .ok (d == e) := by
  have hne : v ≠ [] := by
    intro he
    rw [he] at h16
    simp at h16
  have hc : v.getLast? = some (v.getLast hne) := List.getLast?_eq_getLast v hne
  have hcd : (v.getLast hne).isDigit = true := by
    rw [List.all_eq_true] at hdig
    exact hdig _ (List.mem_of_getLast?_eq_some hc)
  have hdl : v.dropLast.all Char.isDigit = true :=
    all_of_subset (List.dropLast_subset v) hdig
  have hdl0 : (v.dropLast ++ ['0']).all Char.isDigit = true := by
    rw [List.all_append, Bool.and_eq_true]
    exact ⟨hdl, by decide⟩
  obtain ⟨ds, hds⟩ := parseDigits_isSome hdl0
  refine ⟨(v.getLast hne).toNat - 48, luhn_core ds, ?_, ?_, ?_⟩
  · rw [hc]
    simp [pyInt_of_isDigit hcd]
  · rw [luhn_checksum, hds, Option.map_some']
  · rw [luhnCheck]
    have hcond : (cfg.luhn && (v.length == 16)) = true := by
      simp [hl, h16]
    rw [hcond, if_pos rfl, luhn_checksum, hds, Option.map_some', hc]
    simp [pyInt_of_isDigit hcd]

/-- At length exactly 16 with any non-digit character, the validation
checksum branch raises `ValueError`. -/
theorem luhnCheck_nondigit16 (cfg : CardCfg) (v : List Char)
    (hl : cfg.luhn = true) (h16 : v.length = 16)
    (hnd : v.all Char.isDigit = false) :
    luhnCheck cfg v = .error .valueError := by
  have hne : v ≠ [] := by
    intro he
    rw [he] at h16
    simp at h16
  have hc : v.getLast? = some (v.getLast hne) := List.getLast?_eq_getLast v hne
  have hcond : (cfg.luhn && (v.length == 16)) = true := by
    simp [hl, h16]
  rw [luhnCheck, hcond, if_pos rfl]
  rcases hds : parseDigits (v.dropLast ++ ['0']) with _ | ds
  · rw [luhn_checksum, hds, Option.map_none']
  · have hdl0 := all_isDigit_of_parseDigits hds
    rw [List.all_append, Bool.and_eq_true] at hdl0
    rcases hlast : (v.getLast hne).isDigit with _ | _
    · rw [luhn_checksum, hds, Option.map_some', hc]
      have hpn : pyInt (v.getLast hne) = none := by
        simp [pyInt, hlast]
      simp [hpn]
    · have hall : v.all Char.isDigit = true := by
        have hsplit : v.dropLast ++ [v.getLast hne] = v :=
          List.dropLast_append_getLast hne
        rw [← hsplit, List.all_append, Bool.and_eq_true]
        refine ⟨hdl0.1, ?_⟩
        simp [hlast]
      rw [hall] at hnd
      exact absurd hnd (by simp)

/-- Claim C4 counterexample: the claim says validation checksum-checks every
voucher of length at least 15, but a 15-character voucher whose last digit
(1) differs from the recomputed check digit (0) still gets `checksumOk =
true`: the code only ever compares at length exactly 16. -/
theorem checksum_at_length_15_unchecked_cex :
    lookupCard "Vanilla Visa Gift Card" = some vanillaCfg ∧
    vanillaCfg.luhn = true ∧
    shortVoucher.length = 15 ∧
    (shortVoucher.getLast? >>= pyInt) = some 1 ∧
    luhn_checksum (shortVoucher.dropLast ++ ['0']) = some 0 ∧
    luhnCheck vanillaCfg shortVoucher ≠ .ok false ∧
    luhnCheck vanillaCfg shortVoucher = .ok true := by
  decide

/-- Claim C4 (amended): for checksum-requiring products, validation
recomputes and compares the check digit exactly when the voucher length is
16 (for all-digit vouchers); every other length escapes the check with
`checksumOk = true`. -/
theorem checksum_checked_exactly_at_16
    (name : String) (cfg : CardCfg) (_h : lookupCard name = some cfg)
    (hl : cfg.luhn = true) (v : List Char) :
    (v.length ≠ 16 → luhnCheck cfg v = .ok true) ∧
    (v.length = 16 → v.all Char.isDigit = true →
      ∃ d e, (v.getLast? >>= pyInt) = some d ∧
        luhn_checksum (v.dropLast ++ ['0']) = some e ∧
        luhnCheck cfg v = .ok (d == e)) := by
  exact ⟨fun h16 => luhnCheck_not16 cfg v (fun _ => h16),
         fun h16 hdig => luhnCheck_digits16 cfg v hl h16 hdig⟩

/-- Witness for the amended C4: the generated Vanilla voucher at length 16
is compared against its recomputed check digit. -/
theorem checksum_checked_exactly_at_16_witness :
    ∃ d e, (("4000000000000002".toList).getLast? >>= pyInt) = some d ∧
      luhn_checksum (("4000000000000002".toList).dropLast ++ ['0']) = some e ∧
      luhnCheck vanillaCfg "4000000000000002".toList = .ok (d == e) :=
  (checksum_checked_exactly_at_16 "Vanilla Visa Gift Card" vanillaCfg
    (by decide) (by decide) "4000000000000002".toList).2 (by decide) (by decide)

/-- Claim C5 counterexample: the spec's Costco scenario predicts
`valid = false`, `accuracy = 50`, but the example voucher has 19 digits
(not 20), matches the 19-digit pattern, and validates fully. -/
theorem costco_scenario_cex :
    costcoVoucher.length = 19 ∧
    validate_format "Costco Shop Card" costcoVoucher "9876".toList ≠
      .ok { valid := false, accuracy := 50 } ∧
    validate_format "Costco Shop Card" costcoVoucher "9876".toList =
      .ok { valid := true, accuracy := 100 } := by
  decide

/-- Claim C5 (amended): validating "Costco Shop Card" with voucher
"6041234567890123456" (19 digits) and pin "9876" yields
`voucherMatches = true`, `pinMatches = true`, and therefore `valid = true`
with `accuracy = 100`. -/
theorem costco_scenario_amended :
    lookupCard "Costco Shop Card" = some costcoCfg ∧
    reMatchB costcoCfg.voucher_regex.1 costcoCfg.voucher_regex.2
      costcoVoucher = true ∧
    reMatchB costcoCfg.pin_regex.1 costcoCfg.pin_regex.2 "9876".toList = true ∧
    costcoCfg.luhn = false ∧
    validate_format "Costco Shop Card" costcoVoucher "9876".toList =
      .ok { valid := true, accuracy := 100 } := by
  decide

/-- Claim C7: for a known product, `generate` returns exactly `count` cards
for any `count` in [1, 1000]; `count` outside [1, 1000] (for example 0 or
1001) is rejected with InvalidArgument before anything runs; an unknown
product name with an in-range `count` fails with NotFound before any card
is built, with no partial output. -/
theorem generate_batch_contract (name : String) (cfg : CardCfg)
    (rnds : Nat → RandSrc) (h : lookupCard name = some cfg)
    (hr : ∀ i, RandOK (rnds i)) (count : Int) :
    (1 ≤ count → count ≤ 1000 →
      ∃ cards, generate_cards name count rnds = .ok cards ∧
        cards.length = count.toNat) ∧
    ((count < 1 ∨ 1000 < count) → ∀ anyName : String,
      generate_cards anyName count rnds = .error .invalidArgument) ∧
    (∀ badName : String, lookupCard badName = none → 1 ≤ count →
      count ≤ 1000 →
      generate_cards badName count rnds = .error (.notFound badName)) := by
  refine ⟨?_, ?_, ?_⟩
  · intro h1 h2
    have hc : (decide (count < 1) || decide (1000 < count)) = false := by
      simp only [Bool.or_eq_false_iff, decide_eq_false_iff_not, not_lt]
      omega
    have hall : ∀ i ∈ List.range count.toNat,
        ∃ c, generate_one cfg name (rnds i) = some c := by
      intro i _
      obtain ⟨c, hcard, -⟩ := generate_one_spec name cfg (rnds i) h (hr i)
      exact ⟨c, hcard⟩
    obtain ⟨cs, hcs, hlen⟩ := genList_length cfg name rnds _ hall
    refine ⟨cs, ?_, by rw [hlen, List.length_range]⟩
    simp only [generate_cards, hc, Bool.false_eq_true, if_false, h, hcs]
  · intro hout anyName
    have hc : (decide (count < 1) || decide (1000 < count)) = true := by
      rcases hout with h' | h' <;> simp [h']
    simp only [generate_cards, hc, if_true]
  · intro badName hbad h1 h2
    have hc : (decide (count < 1) || decide (1000 < count)) = false := by
      simp only [Bool.or_eq_false_iff, decide_eq_false_iff_not, not_lt]
      omega
    simp only [generate_cards, hc, Bool.false_eq_true, if_false, hbad]

/-- Witness for C7: Costco at counts 1000, 0, 1001, and an unknown name. -/
theorem generate_batch_contract_witness :
    (∃ cards, generate_cards "Costco Shop Card" 1000 (fun _ => rnd0) =
        .ok cards ∧ cards.length = (1000 : Int).toNat) ∧
    generate_cards "Costco Shop Card" 0 (fun _ => rnd0) =
      .error .invalidArgument ∧
    generate_cards "Costco Shop Card" 1001 (fun _ => rnd0) =
      .error .invalidArgument ∧
    generate_cards "No Such Card" 1000 (fun _ => rnd0) =
      .error (.notFound "No Such Card") := by
  refine ⟨?_, ?_, ?_, ?_⟩
  · exact (generate_batch_contract "Costco Shop Card" costcoCfg (fun _ => rnd0)
      (by decide) (fun _ => rnd0_ok) 1000).1 (by decide) (by decide)
  · exact (generate_batch_contract "Costco Shop Card" costcoCfg (fun _ => rnd0)
      (by decide) (fun _ => rnd0_ok) 0).2.1 (Or.inl (by decide)) _
  · exact (generate_batch_contract "Costco Shop Card" costcoCfg (fun _ => rnd0)
      (by decide) (fun _ => rnd0_ok) 1001).2.1 (Or.inr (by decide)) _
  · exact (generate_batch_contract "Costco Shop Card" costcoCfg (fun _ => rnd0)
      (by decide) (fun _ => rnd0_ok) 1000).2.2 "No Such Card" (by decide)
      (by decide) (by decide)

/-- Claim C8 counterexample: NotFound is not the only error `validate` can
raise — on the known product "Vanilla Visa Gift Card" a 16-character
non-digit voucher makes `int()` raise `ValueError`, so no
`ValidationResult` is returned. -/
theorem validate_notfound_only_cex :
    lookupCard "Vanilla Visa Gift Card" = some vanillaCfg ∧
    nonDigitVoucher.length = 16 ∧
    validate_format "Vanilla Visa Gift Card" nonDigitVoucher "123".toList =
      .error .valueError ∧
    validate_format "Vanilla Visa Gift Card" nonDigitVoucher "123".toList ≠
      .error (.notFound "Vanilla Visa Gift Card") := by
  decide

/-- Claim C8 (amended): `validate` fails with NotFound exactly when the
product name is absent from the catalog (checked before any scoring); for a
known product it returns a `ValidationResult` for every (voucher, pin)
input except when the product requires a checksum and the voucher has
exactly 16 characters including a non-digit, in which case it raises
`ValueError`. -/
theorem validate_errors_characterized (name : String) (v p : List Char) :
    (lookupCard name = none →
      validate_format name v p = .error (.notFound name)) ∧
    (∀ cfg, lookupCard name = some cfg →
      (¬(cfg.luhn = true ∧ v.length = 16 ∧ v.all Char.isDigit = false) →
        ∃ r, validate_format name v p = .ok r) ∧
      ((cfg.luhn = true ∧ v.length = 16 ∧ v.all Char.isDigit = false) →
        validate_format name v p = .error .valueError)) := by
  constructor
  · intro hn
    simp only [validate_format, hn]
  · intro cfg hc
    constructor
    · intro hnot
      have hok : ∃ b, luhnCheck cfg v = .ok b := by
        by_cases h16 : cfg.luhn = true ∧ v.length = 16
        · have hdig : v.all Char.isDigit = true := by
            cases hd : v.all Char.isDigit
            · exact absurd ⟨h16.1, h16.2, hd⟩ hnot
            · rfl
          obtain ⟨d, e, -, -, hck⟩ := luhnCheck_digits16 cfg v h16.1 h16.2 hdig
          exact ⟨d == e, hck⟩
        · refine ⟨true, luhnCheck_not16 cfg v ?_⟩
          intro hl h16'
          exact h16 ⟨hl, h16'⟩
      obtain ⟨b, hb⟩ := hok
      exact ⟨_, validate_format_ok name cfg v p b hc hb⟩
    · rintro ⟨hl, h16, hnd⟩
      have herr : luhnCheck cfg v = .error .valueError :=
        luhnCheck_nondigit16 cfg v hl h16 hnd
      simp only [validate_format, hc, herr]

/-- Witness for the amended C8: an unknown name yields NotFound; the Costco
example input yields a result. -/
theorem validate_errors_characterized_witness :
    validate_format "No Such Card" costcoVoucher "9876".toList =
      .error (.notFound "No Such Card") ∧
    (∃ r, validate_format "Costco Shop Card" costcoVoucher "9876".toList =
      .ok r) := by
  refine ⟨?_, ?_⟩
  · exact (validate_errors_characterized "No Such Card" costcoVoucher
      "9876".toList).1 (by decide)
  · exact ((validate_errors_characterized "Costco Shop Card" costcoVoucher
      "9876".toList).2 costcoCfg (by decide)).1 (by decide)

/-- Claim C9 counterexample: full-match semantics fail — a 19-digit string
followed by a trailing newline is not an all-digit string of length 19, yet
it matches Costco's voucher pattern under Python's `re.match` and even
validates with `valid = true`, `accuracy = 100`. -/
theorem pattern_full_match_cex :
    lookupCard "Costco Shop Card" = some costcoCfg ∧
    newlineVoucher.length = 20 ∧
    newlineVoucher.all Char.isDigit = false ∧
    reMatchB costcoCfg.voucher_regex.1 costcoCfg.voucher_regex.2
      newlineVoucher = true ∧
    validate_format "Costco Shop Card" newlineVoucher "9876".toList =
      .ok { valid := true, accuracy := 100 } := by
  decide

/-- Claim C9 (amended): for every known product, a string matches the
voucher (resp. pin) pattern exactly when it is a string of decimal digits
whose length the schema declares, or such a string followed by one trailing
newline (an artifact of `re.match` with `$`). -/
theorem pattern_match_characterized (name : String) (cfg : CardCfg)
    (h : lookupCard name = some cfg) (s : List Char) :
    (reMatchB cfg.voucher_regex.1 cfg.voucher_regex.2 s = true ↔
      ∃ ds : List Char, ds.all Char.isDigit = true ∧
        cfg.voucher_len.allowsB ds.length = true ∧
        (s = ds ∨ s = ds ++ ['\n'])) ∧
    (reMatchB cfg.pin_regex.1 cfg.pin_regex.2 s = true ↔
      ∃ ds : List Char, ds.all Char.isDigit = true ∧
        cfg.pin_len.allowsB ds.length = true ∧
        (s = ds ∨ s = ds ++ ['\n'])) := by
  obtain ⟨hviff, hpiff⟩ := catalog_allows_iff_bounds h
  constructor
  · rw [reMatchB_iff]
    constructor
    · rintro ⟨ds, h1, h2, h3, h4⟩
      exact ⟨ds, h1, (hviff _).mpr ⟨h2, h3⟩, h4⟩
    · rintro ⟨ds, h1, h2, h4⟩
      obtain ⟨h2a, h2b⟩ := (hviff _).mp h2
      exact ⟨ds, h1, h2a, h2b, h4⟩
  · rw [reMatchB_iff]
    constructor
    · rintro ⟨ds, h1, h2, h3, h4⟩
      exact ⟨ds, h1, (hpiff _).mpr ⟨h2, h3⟩, h4⟩
    · rintro ⟨ds, h1, h2, h4⟩
      obtain ⟨h2a, h2b⟩ := (hpiff _).mp h2
      exact ⟨ds, h1, h2a, h2b, h4⟩

/-- Witness for the amended C9: the characterization at the Costco example
voucher. -/
theorem pattern_match_characterized_witness :
    (reMatchB costcoCfg.voucher_regex.1 costcoCfg.voucher_regex.2
        costcoVoucher = true ↔
      ∃ ds : List Char, ds.all Char.isDigit = true ∧
        costcoCfg.voucher_len.allowsB ds.length = true ∧
        (costcoVoucher = ds ∨ costcoVoucher = ds ++ ['\n'])) ∧
    (reMatchB costcoCfg.pin_regex.1 costcoCfg.pin_regex.2
        costcoVoucher = true ↔
      ∃ ds : List Char, ds.all Char.isDigit = true ∧
        costcoCfg.pin_len.allowsB ds.length = true ∧
        (costcoVoucher = ds ∨ costcoVoucher = ds ++ ['\n'])) :=
  pattern_match_characterized "Costco Shop Card" costcoCfg (by decide)
    costcoVoucher
